import Mathlib

/-!
Verification development for the PYTHON_DESIGN_PATTERN repository:
a shallow embedding of the notification-dispatch pipeline found in
src/builder_design_pattern.py, src/facade_design_pattern.py and
src/adapter_design_pattern.py, together with theorems settling the
frozen claims about the spec.

Modelling conventions:
- Python strings are Lean String; Python truthiness of a string is its
  non-emptiness; a Python variable that may be unset is Option.
- Python exceptions are modelled by Except PyError; PyError records the
  exception class and message as raised by the source.
- A Python function that falls off its end returns None; return values
  that may be None or bool are modelled by PyRet.
- Python dicts live on an explicit heap (PyHeap) indexed by reference
  ids, so that aliasing of a dict between two objects is expressible.
- print-based logging is ignored except where a claim is about a log
  line, in which case the emitted log lines are returned alongside.
- Counts of provider/strategy invocations are returned alongside the
  result so that zero-invocation claims are expressible.
-/

/-- A raised Python exception: the class of the exception and its message. -/
inductive PyError where
  | valueError (msg : String)
  | nameError (name : String)
  deriving DecidableEq, Repr

/-- The Python class name of a raised exception. -/
def PyError.className : PyError → String
  | PyError.valueError _ => "ValueError"
  | PyError.nameError _ => "NameError"

/-- A Python return value that is either None or a bool. -/
inductive PyRet where
  | none
  | bool (b : Bool)
  deriving DecidableEq, Repr

/-- Python truthiness test for a string: empty is falsy. -/
def pyEmpty (s : String) : Bool :=
  s.data.isEmpty

/-- Python membership test c in s for a single character. -/
def pyContainsChar (s : String) (c : Char) : Bool :=
  s.data.contains c

/-- Python str.isdigit: true when the string is non-empty and every
character is a digit. -/
def pyIsDigit (s : String) : Bool :=
  !(pyEmpty s) && s.data.all Char.isDigit

/-- Python truthiness of an optional string: None and the empty string
are falsy. -/
def pyTruthyStr : Option String → Bool
  | Option.none => false
  | some s => !(pyEmpty s)

/-- Lookup in a Python dict modelled as an association list. -/
def dictGet : List (String × String) → String → Option String
  | [], _ => Option.none
  | (k2, v2) :: rest, k => if k2 = k then some v2 else dictGet rest k

/-- Assignment d[k] = v in a Python dict modelled as an association
list: replace the binding in place, or append a new one. -/
def dictSet : List (String × String) → String → String → List (String × String)
  | [], k, v => [(k, v)]
  | (k2, v2) :: rest, k, v =>
      if k2 = k then (k, v) :: rest else (k2, v2) :: dictSet rest k v

/-- A heap of Python dicts: each reference id names one dict.  Two
objects holding the same reference alias the same dict. -/
def PyHeap : Type := Nat → List (String × String)

/-- Mutation h[ref][k] = v through a reference. -/
def PyHeap.setItem (h : PyHeap) (ref : Nat) (k v : String) : PyHeap :=
  fun r => if r = ref then dictSet (h r) k v else h r

/-- Read h[ref][k] through a reference. -/
def PyHeap.getItem (h : PyHeap) (ref : Nat) (k : String) : Option String :=
  dictGet (h ref) k

/-- The three channel strategies produced by the factories; each is
pre-wired with its default provider adapter. -/
inductive StrategyKind where
  | email
  | sms
  | push
  deriving DecidableEq, Repr

/-- An observer attached to the event manager: its identity and whether
its update method raises when invoked. -/
structure Obs where
  id : Nat
  failing : Bool
  deriving DecidableEq, Repr

/-- NotificationEventManager.notify of both the builder and the facade
variants: a bare loop over the attached observers invoking update with
the event, with no try/except around an invocation.  Returns the list
of update invocations actually made (observer id with the event passed)
in order, and whether the loop ran to completion: a raising observer
terminates the loop and the exception propagates. -/
def NotificationEventManager.notify {α : Type} : List Obs → α → List (Nat × α) × Bool
  | [], _ => ([], true)
  | o :: rest, ev =>
      if o.failing then ([(o.id, ev)], false)
      else ((o.id, ev) :: (NotificationEventManager.notify rest ev).1,
            (NotificationEventManager.notify rest ev).2)

namespace BuilderVariant

/-- Notification of src/builder_design_pattern.py: the domain object.
The metadata dict is held by reference into the heap. -/
structure Notification where
  notification_type : String
  recipient : String
  message : String
  priority : String
  retry_count : Nat
  metadata : Nat
  deriving DecidableEq, Repr

/-- NotificationBuilder state: required fields start unset (None),
priority defaults to normal, retry_count to 1; _metadata is the
reference to the dict allocated at construction. -/
structure NotificationBuilder where
  _notification_type : Option String
  _recipient : Option String
  _message : Option String
  _priority : String
  _retry_count : Nat
  _metadata : Nat
  deriving DecidableEq, Repr

/-- A fresh builder whose metadata dict lives at the given reference. -/
def NotificationBuilder.init (ref : Nat) : NotificationBuilder :=
  ⟨Option.none, Option.none, Option.none, "normal", 1, ref⟩

def NotificationBuilder.set_type (b : NotificationBuilder) (t : String) : NotificationBuilder :=
  { b with _notification_type := some t }

def NotificationBuilder.set_recipient (b : NotificationBuilder) (r : String) : NotificationBuilder :=
  { b with _recipient := some r }

def NotificationBuilder.set_message (b : NotificationBuilder) (m : String) : NotificationBuilder :=
  { b with _message := some m }

def NotificationBuilder.set_priority (b : NotificationBuilder) (p : String) : NotificationBuilder :=
  { b with _priority := p }

def NotificationBuilder.set_retry (b : NotificationBuilder) (rc : Nat) : NotificationBuilder :=
  { b with _retry_count := rc }

/-- add_metadata mutates the dict the builder references, in place on
the heap, and returns self. -/
def NotificationBuilder.add_metadata (h : PyHeap) (b : NotificationBuilder) (k v : String) :
    PyHeap × NotificationBuilder :=
  (PyHeap.setItem h b._metadata k v, b)

/-- build: raises ValueError when any required field is unset or empty
(Python truthiness), otherwise constructs the Notification from the
builder field values, handing the builder metadata dict reference to
the Notification constructor.  The constructor argument handling
(metadata or empty-dict, builder_design_pattern.py line 46) depends on
the heap and is modelled by buildOnHeap below. -/
def NotificationBuilder.build (b : NotificationBuilder) : Except PyError Notification :=
  match b._notification_type, b._recipient, b._message with
  | some t, some r, some m =>
      if pyEmpty t || pyEmpty r || pyEmpty m then
        Except.error (PyError.valueError "Missing required fields")
      else
        Except.ok ⟨t, r, m, b._priority, b._retry_count, b._metadata⟩
  | _, _, _ => Except.error (PyError.valueError "Missing required fields")

/-- build together with the metadata handling of Notification init
(builder_design_pattern.py line 46): the constructor binds metadata or
empty-dict, so when the dict the builder passes is empty (falsy in
Python) a fresh empty dict is bound in its place and the notification
does not alias the builder dict; otherwise the reference is shared.
fresh is the reference at which the fresh dict is allocated; the
(possibly extended) heap is returned alongside. -/
def NotificationBuilder.buildOnHeap (h : PyHeap) (fresh : Nat) (b : NotificationBuilder) :
    PyHeap × Except PyError Notification :=
  match NotificationBuilder.build b with
  | Except.error e => (h, Except.error e)
  | Except.ok n =>
      if (h n.metadata).isEmpty then
        (fun r => if r = fresh then [] else h r, Except.ok { n with metadata := fresh })
      else (h, Except.ok n)

/-- SendGridAPI.send_jumbo_mail of the builder variant: logs and
returns True. -/
def SendGridAPI.send_jumbo_mail (_to_name _message_body : String) : Bool := true

def TwillioAPI.send_text_message (_mobile_number _message_content : String) : Bool := true

def FireBaseAPI.send_push_message (_push_id _push_content : String) : Bool := true

def SendGridAdapter.send (recipient message : String) : Bool :=
  SendGridAPI.send_jumbo_mail recipient message

def TwillioAdapter.send (recipient message : String) : Bool :=
  TwillioAPI.send_text_message recipient message

def FireBaseAdapter.send (recipient message : String) : Bool :=
  FireBaseAPI.send_push_message recipient message

/-- EmailNotification.send: rejects (returns False) without calling
the provider unless the recipient contains an at sign; otherwise
delegates to the injected provider.  The second component counts
provider invocations. -/
def EmailNotification.send (provider : String → String → Bool) (n : Notification) : Bool × Nat :=
  if pyContainsChar n.recipient '@' = false then (false, 0)
  else (provider n.recipient n.message, 1)

/-- SMSNotification.send: rejects unless the recipient is all digits. -/
def SMSNotification.send (provider : String → String → Bool) (n : Notification) : Bool × Nat :=
  if pyIsDigit n.recipient = false then (false, 0)
  else (provider n.recipient n.message, 1)

/-- PushNotification.send: no recipient validation, always delegates. -/
def PushNotification.send (provider : String → String → Bool) (n : Notification) : Bool × Nat :=
  (provider n.recipient n.message, 1)

/-- NotificationFactory.create: maps the channel string to a strategy
pre-wired with its default adapter; raises ValueError otherwise. -/
def NotificationFactory.create (t : String) : Except PyError StrategyKind :=
  if t = "email" then Except.ok StrategyKind.email
  else if t = "sms" then Except.ok StrategyKind.sms
  else if t = "push" then Except.ok StrategyKind.push
  else Except.error (PyError.valueError "Invalid notification type")

/-- The strategy resolved by the factory applied to a notification,
with its default adapter; returns (result, provider invocations). -/
def strategySend : StrategyKind → Notification → Bool × Nat
  | StrategyKind.email, n => EmailNotification.send SendGridAdapter.send n
  | StrategyKind.sms, n => SMSNotification.send TwillioAdapter.send n
  | StrategyKind.push, n => PushNotification.send FireBaseAdapter.send n

/-- The for-loop of RetryHandler.handle: range(attempts) with a break
on the first successful strategy.send.  send gives the outcome of the
k-th strategy invocation as (success, provider invocations inside it).
Arguments: current loop index, remaining iterations, current value of
the local variable success (Option.none while still unassigned).
Returns (final value of success, strategy invocations made, provider
invocations made). -/
def retryLoop (send : Nat → Bool × Nat) : Nat → Nat → Option Bool → Option Bool × Nat × Nat
  | _, 0, s => (s, 0, 0)
  | idx, rem + 1, _ =>
      if (send idx).1 = true then
        (some true, 1, (send idx).2)
      else
        ((retryLoop send (idx + 1) rem (some false)).1,
         (retryLoop send (idx + 1) rem (some false)).2.1 + 1,
         (send idx).2 + (retryLoop send (idx + 1) rem (some false)).2.2)

/-- RetryHandler.handle of the builder variant: runs the attempt loop
over retry_count iterations; if the local success was never assigned
(zero iterations) the read of success raises NameError, modelled as
Option.none; if success is False the handler returns False; otherwise
it forwards to the next handler (next holds its result) or returns
True when there is none.  Also returns strategy and provider
invocation counts. -/
def RetryHandler.handle (send : Nat → Bool × Nat) (retry_count : Nat) (next : Option Bool) :
    Option Bool × Nat × Nat :=
  ((match (retryLoop send 0 retry_count Option.none).1 with
    | Option.none => Option.none
    | some success =>
        if success = false then some false
        else some (next.getD true)),
   (retryLoop send 0 retry_count Option.none).2.1,
   (retryLoop send 0 retry_count Option.none).2.2)

/-- MetricsHandler.handle: logs and returns True. -/
def MetricsHandler.handle : Bool := true

/-- The chain assembled by NotificationSystem._build_chain: RetryHandler
followed by MetricsHandler.  There is no input-validation handler in
this variant. -/
def builderChain (send : Nat → Bool × Nat) (retry_count : Nat) : Option Bool × Nat × Nat :=
  RetryHandler.handle send retry_count (some MetricsHandler.handle)

/-- NotificationSystem.send: resolves the strategy via the factory,
runs the chain, and on a truthy chain result hands the notification
object itself to the event manager.  Returns (chain result, the list
of notify invocations made with their argument, provider invocation
count); Except.error models an escaping exception. -/
def NotificationSystem.send (n : Notification) :
    Except PyError (Bool × List Notification × Nat) :=
  match NotificationFactory.create n.notification_type with
  | Except.error e => Except.error e
  | Except.ok kind =>
      match builderChain (fun _ => strategySend kind n) n.retry_count with
      | (Option.none, _, _) => Except.error (PyError.nameError "success")
      | (some res, _, ac) => Except.ok (res, if res then [n] else [], ac)

end BuilderVariant

namespace FacadeVariant

/-- The event dict built by send_notification and handed to notify on
success: a fresh value holding the three strings of the call, with no
reference into the dispatch context. -/
structure EventData where
  notification_type : String
  recipient : String
  message : String
  deriving DecidableEq, Repr

/-- SendGridAPI.send_jumbo_mail of the facade variant: logs and
returns True. -/
def SendGridAPI.send_jumbo_mail (_to_name _message_body : String) : Bool := true

def TwillioAPI.send_text_message (_mobile_number _message_content : String) : Bool := true

def FireBaseAPI.send_push_message (_push_id _push_content : String) : Bool := true

def SendGridAdapter.send (recipient message : String) : Bool :=
  SendGridAPI.send_jumbo_mail recipient message

def TwillioAdapter.send (recipient message : String) : Bool :=
  TwillioAPI.send_text_message recipient message

def FireBaseAdapter.send (recipient message : String) : Bool :=
  FireBaseAPI.send_push_message recipient message

/-- EmailNotification.send of the facade variant: logs and returns
False without calling the provider unless the recipient contains an at
sign; otherwise delegates.  Second component counts provider
invocations. -/
def EmailNotification.send (provider : String → String → Bool) (recipient message : String) :
    Bool × Nat :=
  if pyContainsChar recipient '@' = false then (false, 0)
  else (provider recipient message, 1)

/-- SMSNotification.send of the facade variant: rejects unless the
recipient is all digits. -/
def SMSNotification.send (provider : String → String → Bool) (recipient message : String) :
    Bool × Nat :=
  if pyIsDigit recipient = false then (false, 0)
  else (provider recipient message, 1)

/-- PushNotification.send of the facade variant: no validation. -/
def PushNotification.send (provider : String → String → Bool) (recipient message : String) :
    Bool × Nat :=
  (provider recipient message, 1)

/-- NotificationFactory.create_notification: maps the channel string to
a strategy wired with its default adapter; raises ValueError
otherwise. -/
def NotificationFactory.create_notification (t : String) : Except PyError StrategyKind :=
  if t = "email" then Except.ok StrategyKind.email
  else if t = "sms" then Except.ok StrategyKind.sms
  else if t = "push" then Except.ok StrategyKind.push
  else Except.error (PyError.valueError "Invalid notification type")

/-- The strategy resolved by the factory applied to (recipient,
message) with its default adapter: (result, provider invocations). -/
def strategySend : StrategyKind → String → String → Bool × Nat
  | StrategyKind.email, r, m => EmailNotification.send SendGridAdapter.send r m
  | StrategyKind.sms, r, m => SMSNotification.send TwillioAdapter.send r m
  | StrategyKind.push, r, m => PushNotification.send FireBaseAdapter.send r m

/-- MetricsHandler.handle: logs and returns True. -/
def MetricsHandler.handle : Bool := true

/-- RetryHandler.handle of the facade variant: one strategy.send
attempt; on a falsy result returns False, otherwise forwards to the
next handler (the random temporary-failure branch only logs and
sleeps, it does not change the outcome).  Returns (result, strategy
invocations, provider invocations). -/
def RetryHandler.handle (kind : StrategyKind) (recipient message : String) (next : Bool) :
    Bool × Nat × Nat :=
  if (strategySend kind recipient message).1 = false then
    (false, 1, (strategySend kind recipient message).2)
  else (next, 1, (strategySend kind recipient message).2)

/-- InputValidationHandler.handle followed by the rest of the chain
built by _build_chain (validation, then retry, then metrics): rejects
when recipient or message is falsy, before any strategy invocation. -/
def chainHandle (kind : StrategyKind) (recipient message : String) : Bool × Nat × Nat :=
  if pyEmpty recipient || pyEmpty message then (false, 0, 0)
  else RetryHandler.handle kind recipient message MetricsHandler.handle

/-- NotificationSystem.send_notification: resolves the strategy, runs
the chain, and on a truthy chain result builds a fresh event dict from
the three call arguments and hands it to the event manager.  Returns
(chain result, the list of notify invocations made with their
argument, strategy invocations, provider invocations). -/
def send_notification (t recipient message : String) :
    Except PyError (Bool × List EventData × Nat × Nat) :=
  match NotificationFactory.create_notification t with
  | Except.error e => Except.error e
  | Except.ok kind =>
      match chainHandle kind recipient message with
      | (res, sc, ac) =>
          Except.ok (res, if res then [⟨t, recipient, message⟩] else [], sc, ac)

end FacadeVariant

namespace AdapterVariant

/-- SendGridAPI.send_jumbo_mail of the adapter variant: logs and falls
off the end of the function, returning None. -/
def SendGridAPI.send_jumbo_mail (_to_name _message_body : String) : PyRet := PyRet.none

/-- TwillioAPI.send_text_message of the adapter variant: returns None. -/
def TwillioAPI.send_text_message (_mobile_number _message_content : String) : PyRet := PyRet.none

/-- FireBaseAPI.send_push_message of the adapter variant: returns None. -/
def FireBaseAPI.send_push_message (_push_id _push_content : String) : PyRet := PyRet.none

def SendGridAdapter.send (recipient message : String) : PyRet :=
  SendGridAPI.send_jumbo_mail recipient message

def TwillioAdapter.send (recipient message : String) : PyRet :=
  TwillioAPI.send_text_message recipient message

def FireBaseAdapter.send (recipient message : String) : PyRet :=
  FireBaseAPI.send_push_message recipient message

/-- EmailNotification.send of the adapter variant: the validation
branch only logs an error line; the provider is invoked
unconditionally and its value returned.  Returns (provider result,
provider invocations, error lines logged). -/
def EmailNotification.send (provider : String → String → PyRet) (recipient message : String) :
    PyRet × Nat × List String :=
  ((provider recipient message), 1,
   if pyContainsChar recipient '@' = false then ["invalid recipient for email notification"] else [])

/-- SMSNotification.send of the adapter variant: logs on a non-digit
recipient but still invokes the provider. -/
def SMSNotification.send (provider : String → String → PyRet) (recipient message : String) :
    PyRet × Nat × List String :=
  ((provider recipient message), 1,
   if pyIsDigit recipient = false then ["invalid recipient for sms notification"] else [])

/-- PushNotification.send of the adapter variant: always delegates. -/
def PushNotification.send (provider : String → String → PyRet) (recipient message : String) :
    PyRet × Nat × List String :=
  ((provider recipient message), 1, [])

end AdapterVariant

namespace BuilderVariant

/-- The attempt loop makes at most rem strategy invocations. -/
theorem retryLoop_calls_le (send : Nat → Bool × Nat) :
    ∀ (rem idx : Nat) (s : Option Bool), (retryLoop send idx rem s).2.1 ≤ rem := by
  intro rem
  induction rem with
  | zero => intro idx s; simp [retryLoop]
  | succ r ih =>
      intro idx s
      by_cases h : (send idx).1 = true
      · simp [retryLoop, h]
      · simp only [retryLoop, if_neg h]
        exact Nat.succ_le_succ (ih (idx + 1) (some false))

/-- When every attempt fails, the loop started with success already
assigned False leaves success False after exactly rem invocations. -/
theorem retryLoop_all_fail_sf (send : Nat → Bool × Nat) :
    ∀ (rem idx : Nat), (∀ k, k < rem → (send (idx + k)).1 = false) →
      (retryLoop send idx rem (some false)).1 = some false ∧
      (retryLoop send idx rem (some false)).2.1 = rem := by
  intro rem
  induction rem with
  | zero => intro idx _; exact ⟨rfl, rfl⟩
  | succ r ih =>
      intro idx h
      have h0 : (send idx).1 = false := by simpa using h 0 (Nat.succ_pos r)
      have hs : ∀ k, k < r → (send (idx + 1 + k)).1 = false := by
        intro k hk
        have e : idx + 1 + k = idx + (k + 1) := by omega
        rw [e]
        exact h (k + 1) (by omega)
      have hrec := ih (idx + 1) hs
      constructor
      · simp [retryLoop, h0, hrec.1]
      · simp [retryLoop, h0, hrec.2]

/-- When every one of the rem = r + 1 attempts fails, the loop leaves
success False after exactly rem invocations, from any initial state of
the success variable. -/
theorem retryLoop_all_fail (send : Nat → Bool × Nat) (r idx : Nat) (s : Option Bool)
    (h : ∀ k, k < r + 1 → (send (idx + k)).1 = false) :
    (retryLoop send idx (r + 1) s).1 = some false ∧
    (retryLoop send idx (r + 1) s).2.1 = r + 1 := by
  have h0 : (send idx).1 = false := by simpa using h 0 (Nat.succ_pos r)
  have hs : ∀ k, k < r → (send (idx + 1 + k)).1 = false := by
    intro k hk
    have e : idx + 1 + k = idx + (k + 1) := by omega
    rw [e]
    exact h (k + 1) (by omega)
  have hrec := retryLoop_all_fail_sf send r (idx + 1) hs
  constructor
  · simp [retryLoop, h0, hrec.1]
  · simp [retryLoop, h0, hrec.2]

/-- When the attempt at offset j is the first to succeed and the budget
allows reaching it, the loop breaks with success True after exactly
j + 1 invocations. -/
theorem retryLoop_first_success (send : Nat → Bool × Nat) :
    ∀ (j rem idx : Nat) (s : Option Bool), j < rem →
      (∀ k, k < j → (send (idx + k)).1 = false) → (send (idx + j)).1 = true →
      (retryLoop send idx rem s).1 = some true ∧
      (retryLoop send idx rem s).2.1 = j + 1 := by
  intro j
  induction j with
  | zero =>
      intro rem idx s hlt hk hj
      obtain ⟨r, rfl⟩ : ∃ r, rem = r + 1 := ⟨rem - 1, by omega⟩
      have h0 : (send idx).1 = true := by simpa using hj
      constructor <;> simp [retryLoop, h0]
  | succ j ih =>
      intro rem idx s hlt hk hj
      obtain ⟨r, rfl⟩ : ∃ r, rem = r + 1 := ⟨rem - 1, by omega⟩
      have h0 : (send idx).1 = false := by simpa using hk 0 (Nat.succ_pos j)
      have hk2 : ∀ k, k < j → (send (idx + 1 + k)).1 = false := by
        intro k hkk
        have e : idx + 1 + k = idx + (k + 1) := by omega
        rw [e]
        exact hk (k + 1) (by omega)
      have hj2 : (send (idx + 1 + j)).1 = true := by
        have e : idx + 1 + j = idx + (j + 1) := by omega
        rw [e]
        exact hj
      have hrec := ih r (idx + 1) (some false) (by omega) hk2 hj2
      constructor
      · simp [retryLoop, h0, hrec.1]
      · simp [retryLoop, h0, hrec.2]

end BuilderVariant

/-- Claim C1: for a dispatch with retry budget N at least 1, the builder
variant retry stage invokes the strategy send at most N times and stops
at the first success; if the first N - 1 attempts fail and the Nth
succeeds, the stage outcome is success with N invocations made; if all
N attempts fail the stage returns False (the pipeline aborts); and when
the first success comes at attempt j + 1 exactly j + 1 invocations are
made. -/
theorem c1_retry_budget (N : Nat) (hN : 1 ≤ N) (send : Nat → Bool × Nat) :
    (BuilderVariant.builderChain send N).2.1 ≤ N
    ∧ ((∀ k, k < N - 1 → (send k).1 = false) → (send (N - 1)).1 = true →
        (BuilderVariant.builderChain send N).1 = some true ∧
        (BuilderVariant.builderChain send N).2.1 = N)
    ∧ ((∀ k, k < N → (send k).1 = false) →
        (BuilderVariant.builderChain send N).1 = some false ∧
        (BuilderVariant.builderChain send N).2.1 = N)
    ∧ (∀ j, j < N → (∀ k, k < j → (send k).1 = false) → (send j).1 = true →
        (BuilderVariant.builderChain send N).1 = some true ∧
        (BuilderVariant.builderChain send N).2.1 = j + 1) := by
  refine ⟨?_, ?_, ?_, ?_⟩
  · exact BuilderVariant.retryLoop_calls_le send N 0 Option.none
  · intro hfail hsucc
    have hfs := BuilderVariant.retryLoop_first_success send (N - 1) N 0 Option.none
      (by omega) (fun k hk => by simpa using hfail k hk) (by simpa using hsucc)
    have hNe : N - 1 + 1 = N := by omega
    constructor
    · simp [BuilderVariant.builderChain, BuilderVariant.RetryHandler.handle,
        BuilderVariant.MetricsHandler.handle, hfs.1]
    · simp [BuilderVariant.builderChain, BuilderVariant.RetryHandler.handle, hfs.2, hNe]
  · intro hfail
    obtain ⟨r, rfl⟩ : ∃ r, N = r + 1 := ⟨N - 1, by omega⟩
    have haf := BuilderVariant.retryLoop_all_fail send r 0 Option.none
      (fun k hk => by simpa using hfail k hk)
    constructor
    · simp [BuilderVariant.builderChain, BuilderVariant.RetryHandler.handle, haf.1]
    · simp [BuilderVariant.builderChain, BuilderVariant.RetryHandler.handle, haf.2]
  · intro j hj hk hjs
    have hfs := BuilderVariant.retryLoop_first_success send j N 0 Option.none hj
      (fun k hkk => by simpa using hk k hkk) (by simpa using hjs)
    constructor
    · simp [BuilderVariant.builderChain, BuilderVariant.RetryHandler.handle,
        BuilderVariant.MetricsHandler.handle, hfs.1]
    · simp [BuilderVariant.builderChain, BuilderVariant.RetryHandler.handle, hfs.2]

/-- Witness for C1: with budget 2 and a strategy failing the first
attempt and succeeding on the second, the stage succeeds after exactly
2 invocations. -/
theorem c1_retry_budget_witness :
    (BuilderVariant.builderChain (fun k => (k == 1, 1)) 2).1 = some true ∧
    (BuilderVariant.builderChain (fun k => (k == 1, 1)) 2).2.1 = 2 :=
  (c1_retry_budget 2 (by decide) (fun k => (k == 1, 1))).2.1 (by decide) (by decide)

/-- Claim C9: with retry_count = 0 the attempt loop body never runs, so
the local variable success is never assigned and the builder variant
RetryHandler.handle raises NameError (modelled Option.none) after zero
strategy invocations; at system level the dispatch of a retry_count = 0
notification escapes with that NameError. -/
theorem c9_zero_retry_name_error :
    (∀ (send : Nat → Bool × Nat) (next : Option Bool),
        BuilderVariant.RetryHandler.handle send 0 next = (Option.none, 0, 0))
    ∧ BuilderVariant.NotificationSystem.send ⟨"email", "a@b.c", "Hi", "normal", 0, 0⟩
        = Except.error (PyError.nameError "success") :=
  ⟨fun _ _ => rfl, rfl⟩

/-- After dictSet, looking up the assigned key yields the assigned
value. -/
theorem dictGet_dictSet (d : List (String × String)) (k v : String) :
    dictGet (dictSet d k v) k = some v := by
  induction d with
  | nil => simp [dictGet, dictSet]
  | cons p rest ih =>
      by_cases h : p.1 = k
      · simp [dictGet, dictSet, h]
      · simp [dictGet, dictSet, h, ih]

/-- Helper: a successful build returns a notification carrying the
builder metadata reference as the constructor argument. -/
theorem build_metadata_eq (b : BuilderVariant.NotificationBuilder)
    (n : BuilderVariant.Notification)
    (hb : BuilderVariant.NotificationBuilder.build b = Except.ok n) :
    n.metadata = b._metadata := by
  rcases b with ⟨t?, r?, m?, p, rc, md⟩
  cases t? with
  | none => simp [BuilderVariant.NotificationBuilder.build] at hb
  | some tt =>
    cases r? with
    | none => simp [BuilderVariant.NotificationBuilder.build] at hb
    | some rr =>
      cases m? with
      | none => simp [BuilderVariant.NotificationBuilder.build] at hb
      | some mm =>
        simp only [BuilderVariant.NotificationBuilder.build] at hb
        split at hb
        · exact absurd hb (by simp)
        · injection hb with hn
          rw [← hn]

/-- Claim C10 (counterexample): when the builder metadata dict is empty
at build time, the Notification constructor binds a fresh dict
(metadata or empty-dict at builder_design_pattern.py line 46), so the
built notification does not alias the builder dict: the concrete
add_metadata made after build is not visible through the built
notification, refuting the universal aliasing claim. -/
theorem c10_counterexample :
    (BuilderVariant.NotificationBuilder.buildOnHeap (fun _ => []) 1
        ⟨some "email", some "test@gmail.com", some "Hello", "high", 2, 0⟩).2
      = Except.ok ⟨"email", "test@gmail.com", "Hello", "high", 2, 1⟩
    ∧ PyHeap.getItem
        (BuilderVariant.NotificationBuilder.add_metadata
          (BuilderVariant.NotificationBuilder.buildOnHeap (fun _ => []) 1
            ⟨some "email", some "test@gmail.com", some "Hello", "high", 2, 0⟩).1
          ⟨some "email", some "test@gmail.com", some "Hello", "high", 2, 0⟩
          "campaign" "Diwali Sale").1
        1 "campaign" = Option.none :=
  ⟨rfl, rfl⟩

/-- Claim C10 (amended): the notification returned by build aliases the
builder metadata dict exactly when that dict is non-empty at build
time: then every later add_metadata on the builder is visible through
the built notification; when the dict is empty at build time the
constructor binds a fresh dict (metadata or empty-dict) and a later
add_metadata on the builder is not visible through the built
notification. -/
theorem c10_metadata_aliasing_conditional (h : PyHeap) (fresh : Nat)
    (b : BuilderVariant.NotificationBuilder) (k v : String)
    (n : BuilderVariant.Notification) :
    ((h b._metadata).isEmpty = false →
      (BuilderVariant.NotificationBuilder.buildOnHeap h fresh b).2 = Except.ok n →
      PyHeap.getItem
        (BuilderVariant.NotificationBuilder.add_metadata
          (BuilderVariant.NotificationBuilder.buildOnHeap h fresh b).1 b k v).1
        n.metadata k = some v)
    ∧ ((h b._metadata).isEmpty = true → fresh ≠ b._metadata →
      (BuilderVariant.NotificationBuilder.buildOnHeap h fresh b).2 = Except.ok n →
      PyHeap.getItem
        (BuilderVariant.NotificationBuilder.add_metadata
          (BuilderVariant.NotificationBuilder.buildOnHeap h fresh b).1 b k v).1
        n.metadata k = Option.none) := by
  rcases hbuild : BuilderVariant.NotificationBuilder.build b with e | n0
  · constructor
    · intro _ hok
      simp [BuilderVariant.NotificationBuilder.buildOnHeap, hbuild] at hok
    · intro _ _ hok
      simp [BuilderVariant.NotificationBuilder.buildOnHeap, hbuild] at hok
  · have hm := build_metadata_eq b n0 hbuild
    constructor
    · intro hne hok
      simp only [BuilderVariant.NotificationBuilder.buildOnHeap, hbuild] at hok ⊢
      rw [hm] at hok ⊢
      simp [hne] at hok ⊢
      subst hok
      rw [hm]
      simp [BuilderVariant.NotificationBuilder.add_metadata, PyHeap.getItem, PyHeap.setItem,
        dictGet_dictSet]
    · intro hemp hfr hok
      simp only [BuilderVariant.NotificationBuilder.buildOnHeap, hbuild] at hok ⊢
      rw [hm] at hok ⊢
      simp [hemp] at hok ⊢
      subst hok
      simp [BuilderVariant.NotificationBuilder.add_metadata, PyHeap.getItem, PyHeap.setItem,
        hfr, Ne.symm hfr, dictGet]

/-- Witness for C10 (amended): with a non-empty metadata dict at build
the binding added after build is visible through the notification; with
an empty dict at build it is not. -/
theorem c10_metadata_aliasing_conditional_witness :
    PyHeap.getItem
      (BuilderVariant.NotificationBuilder.add_metadata
        (BuilderVariant.NotificationBuilder.buildOnHeap
          (fun _ => [("campaign", "Diwali Sale")]) 1
          ⟨some "email", some "test@gmail.com", some "Hello", "high", 2, 0⟩).1
        ⟨some "email", some "test@gmail.com", some "Hello", "high", 2, 0⟩
        "offer" "Big Billion").1
      0 "offer" = some "Big Billion"
    ∧ PyHeap.getItem
        (BuilderVariant.NotificationBuilder.add_metadata
          (BuilderVariant.NotificationBuilder.buildOnHeap (fun _ => []) 2
            ⟨some "sms", some "9029187708", some "Hi", "normal", 1, 0⟩).1
          ⟨some "sms", some "9029187708", some "Hi", "normal", 1, 0⟩
          "k" "v").1
        2 "k" = Option.none :=
  ⟨(c10_metadata_aliasing_conditional (fun _ => [("campaign", "Diwali Sale")]) 1
      ⟨some "email", some "test@gmail.com", some "Hello", "high", 2, 0⟩ "offer" "Big Billion"
      ⟨"email", "test@gmail.com", "Hello", "high", 2, 0⟩).1 rfl rfl,
   (c10_metadata_aliasing_conditional (fun _ => []) 2
      ⟨some "sms", some "9029187708", some "Hi", "normal", 1, 0⟩ "k" "v"
      ⟨"sms", "9029187708", "Hi", "normal", 1, 2⟩).2 rfl (by decide) rfl⟩

/-- Claim C7 (code bug): in the adapter variant the external API
functions fall off their end, so every provider adapter send returns
None rather than a boolean; the facade and builder variants of the same
adapters return True. -/
theorem c7_adapter_returns_none :
    AdapterVariant.SendGridAdapter.send "user@example.com" "Hi" = PyRet.none
    ∧ AdapterVariant.TwillioAdapter.send "9029187708" "Hi" = PyRet.none
    ∧ AdapterVariant.FireBaseAdapter.send "FRIDAY_USER" "Hi" = PyRet.none
    ∧ FacadeVariant.SendGridAdapter.send "user@example.com" "Hi" = true
    ∧ BuilderVariant.SendGridAdapter.send "user@example.com" "Hi" = true :=
  ⟨rfl, rfl, rfl, rfl, rfl⟩

/-- Claim C2 (code bug): in the adapter variant a failed recipient
format validation only logs the error line and the provider is still
invoked (once) with its None result returned, for both the email and
the sms strategies; the facade variant conforms to the claimed
contract, returning False with zero provider invocations. -/
theorem c2_validation_does_not_abort_in_adapter_variant :
    AdapterVariant.EmailNotification.send AdapterVariant.SendGridAdapter.send "plainaddress" "Hi"
        = (PyRet.none, 1, ["invalid recipient for email notification"])
    ∧ AdapterVariant.SMSNotification.send AdapterVariant.TwillioAdapter.send "abc@gmail" "Hi"
        = (PyRet.none, 1, ["invalid recipient for sms notification"])
    ∧ FacadeVariant.EmailNotification.send FacadeVariant.SendGridAdapter.send "plainaddress" "Hi"
        = (false, 0)
    ∧ FacadeVariant.SMSNotification.send FacadeVariant.TwillioAdapter.send "abc@gmail" "Hi"
        = (false, 0)
    ∧ FacadeVariant.SMSNotification.send FacadeVariant.TwillioAdapter.send "9029187708" "Hi"
        = (true, 1) :=
  ⟨rfl, rfl, rfl, rfl, rfl⟩

/-- Claim C6 (counterexample): the factory rejects an unrecognized
channel and the builder rejects an incomplete request by raising plain
ValueError; no UnsupportedChannelError or IncompleteRequestError class
exists, so the raised class differs from the one the claim names. -/
theorem c6_counterexample :
    BuilderVariant.NotificationFactory.create "fax"
        = Except.error (PyError.valueError "Invalid notification type")
    ∧ (PyError.valueError "Invalid notification type").className = "ValueError"
    ∧ ("ValueError" : String) ≠ "UnsupportedChannelError"
    ∧ BuilderVariant.NotificationBuilder.build (BuilderVariant.NotificationBuilder.init 0)
        = Except.error (PyError.valueError "Missing required fields")
    ∧ ("ValueError" : String) ≠ "IncompleteRequestError" :=
  ⟨rfl, rfl, by decide, rfl, by decide⟩

/-- Claim C6 (amended): create raises ValueError for every channel
other than email, sms, push, and build raises ValueError whenever the
channel, recipient or message field was never set; both fail fast by
raising rather than returning a failure value. -/
theorem c6_fail_fast (t : String) (h1 : t ≠ "email") (h2 : t ≠ "sms") (h3 : t ≠ "push") :
    BuilderVariant.NotificationFactory.create t
        = Except.error (PyError.valueError "Invalid notification type")
    ∧ (∀ b : BuilderVariant.NotificationBuilder,
        b._notification_type = Option.none ∨ b._recipient = Option.none ∨
          b._message = Option.none →
        BuilderVariant.NotificationBuilder.build b
          = Except.error (PyError.valueError "Missing required fields")) := by
  constructor
  · simp [BuilderVariant.NotificationFactory.create, h1, h2, h3]
  · intro b hb
    rcases b with ⟨t?, r?, m?, p, rc, md⟩
    rcases t? with _ | tt <;> rcases r? with _ | rr <;> rcases m? with _ | mm <;>
      simp [BuilderVariant.NotificationBuilder.build] ; simp at hb

/-- Witness for C6 (amended): the channel string voice is rejected by
the factory, and a builder with no recipient is rejected by build. -/
theorem c6_fail_fast_witness :
    BuilderVariant.NotificationFactory.create "voice"
        = Except.error (PyError.valueError "Invalid notification type")
    ∧ BuilderVariant.NotificationBuilder.build
        ⟨some "email", Option.none, some "Hi", "normal", 1, 0⟩
        = Except.error (PyError.valueError "Missing required fields") :=
  ⟨(c6_fail_fast "voice" (by decide) (by decide) (by decide)).1,
   (c6_fail_fast "voice" (by decide) (by decide) (by decide)).2
     ⟨some "email", Option.none, some "Hi", "normal", 1, 0⟩ (Or.inr (Or.inl rfl))⟩

/-- Claim C5 (counterexample): with three attached observers of which
the second raises in update, notify delivers the event to the first two
only and the third attached observer is never invoked, so one observer
failure does prevent a later observer from being notified. -/
theorem c5_counterexample :
    NotificationEventManager.notify [(⟨0, false⟩ : Obs), ⟨1, true⟩, ⟨2, false⟩] (0 : Nat)
        = ([(0, 0), (1, 0)], false)
    ∧ ¬ ((2, 0) ∈ (NotificationEventManager.notify
          [(⟨0, false⟩ : Obs), ⟨1, true⟩, ⟨2, false⟩] (0 : Nat)).1) := by
  constructor
  · rfl
  · decide

/-- Claim C5 (amended): notify invokes update with the event on the
attached observers in attachment order, but without isolation: when no
observer raises, every observer is invoked in order and the loop
completes; when some observer raises, the observers before it are
invoked in order, it is invoked and raises, and every later-attached
observer is not notified. -/
theorem c5_order_without_isolation :
    (∀ (α : Type) (obs : List Obs) (ev : α), (∀ o ∈ obs, o.failing = false) →
        NotificationEventManager.notify obs ev = (obs.map fun o => (o.id, ev), true))
    ∧ (∀ (α : Type) (pre : List Obs) (o : Obs) (post : List Obs) (ev : α),
        (∀ p ∈ pre, p.failing = false) → o.failing = true →
        NotificationEventManager.notify (pre ++ o :: post) ev
          = ((pre.map fun p => (p.id, ev)) ++ [(o.id, ev)], false)) := by
  constructor
  · intro α obs ev h
    induction obs with
    | nil => rfl
    | cons o rest ih =>
        have ho : o.failing = false := h o (by simp)
        have hr := ih (fun p hp => h p (by simp [hp]))
        simp [NotificationEventManager.notify, ho, hr]
  · intro α pre o post ev
    induction pre with
    | nil =>
        intro _ ho
        simp [NotificationEventManager.notify, ho]
    | cons p rest ih =>
        intro hpre ho
        have hp : p.failing = false := hpre p (by simp)
        have hr := ih (fun q hq => hpre q (by simp [hq])) ho
        simp [NotificationEventManager.notify, hp, hr]

/-- Witness for C5 (amended): three non-raising observers all receive
the event in attachment order, and with a raising observer in second
position only the first two invocations happen. -/
theorem c5_order_without_isolation_witness :
    NotificationEventManager.notify [(⟨0, false⟩ : Obs), ⟨1, false⟩, ⟨2, false⟩] (7 : Nat)
        = ([(0, 7), (1, 7), (2, 7)], true)
    ∧ NotificationEventManager.notify [(⟨0, false⟩ : Obs), ⟨1, true⟩, ⟨2, false⟩] (7 : Nat)
        = ([(0, 7), (1, 7)], false) := by
  constructor
  · have h := c5_order_without_isolation.1 Nat [⟨0, false⟩, ⟨1, false⟩, ⟨2, false⟩] 7 (by decide)
    simpa using h
  · have h := c5_order_without_isolation.2 Nat [⟨0, false⟩] ⟨1, true⟩ [⟨2, false⟩] 7
      (by decide) rfl
    simpa using h

/-- Claim C3 (counterexample): the builder variant chain built by
_build_chain starts at the retry stage with no input-validation
handler, so a push notification with empty recipient and empty message
is not rejected: the strategy delegates to the provider adapter, which
records one invocation, the dispatch succeeds and an event is even
emitted. -/
theorem c3_counterexample :
    (BuilderVariant.Notification.recipient ⟨"push", "", "", "normal", 1, 0⟩ = "")
    ∧ (BuilderVariant.Notification.message ⟨"push", "", "", "normal", 1, 0⟩ = "")
    ∧ BuilderVariant.NotificationSystem.send ⟨"push", "", "", "normal", 1, 0⟩
        = Except.ok (true, [⟨"push", "", "", "normal", 1, 0⟩], 1) :=
  ⟨rfl, rfl, rfl⟩

/-- Claim C3 (amended): in the facade variant, whose chain does begin
with InputValidationHandler, a request with empty recipient or empty
message is rejected by that first stage with result False, no event,
zero strategy invocations and zero provider invocations; the builder
variant chain has no validation stage and instead its builder rejects
an empty recipient or message at build time. -/
theorem c3_validation_stage (t recipient message : String)
    (hrm : pyEmpty recipient = true ∨ pyEmpty message = true) :
    (∀ res : Bool × List FacadeVariant.EventData × Nat × Nat,
        FacadeVariant.send_notification t recipient message = Except.ok res →
        res.1 = false ∧ res.2.1 = [] ∧ res.2.2.1 = 0 ∧ res.2.2.2 = 0)
    ∧ (∀ b : BuilderVariant.NotificationBuilder,
        b._recipient = some recipient ∨ b._message = some message →
        b._recipient = some "" ∨ b._message = some "" →
        BuilderVariant.NotificationBuilder.build b
          = Except.error (PyError.valueError "Missing required fields")) := by
  have hb : (pyEmpty recipient || pyEmpty message) = true := by
    rcases hrm with h | h <;> simp [h]
  constructor
  · intro res hres
    rcases hc : FacadeVariant.NotificationFactory.create_notification t with e | kind
    · simp [FacadeVariant.send_notification, hc] at hres
    · simp [FacadeVariant.send_notification, hc, FacadeVariant.chainHandle, hb] at hres
      simp [← hres]
  · intro b _ hset
    rcases b with ⟨t?, r?, m?, p, rc, md⟩
    rcases hset with h | h <;> simp only at h <;> subst h <;>
      rcases t? with _ | tt <;>
        first
          | (rcases m? with _ | mm <;>
              simp [BuilderVariant.NotificationBuilder.build, pyEmpty])
          | (rcases r? with _ | rr <;>
              simp [BuilderVariant.NotificationBuilder.build, pyEmpty])

/-- Witness for C3 (amended): an email request with empty recipient is
rejected by the facade validation stage with zero invocations, and a
builder whose recipient was set to the empty string is rejected by
build. -/
theorem c3_validation_stage_witness :
    (((false, [], 0, 0) : Bool × List FacadeVariant.EventData × Nat × Nat).1 = false
      ∧ ((false, [], 0, 0) : Bool × List FacadeVariant.EventData × Nat × Nat).2.1 = []
      ∧ ((false, [], 0, 0) : Bool × List FacadeVariant.EventData × Nat × Nat).2.2.1 = 0
      ∧ ((false, [], 0, 0) : Bool × List FacadeVariant.EventData × Nat × Nat).2.2.2 = 0)
    ∧ BuilderVariant.NotificationBuilder.build
        ⟨some "email", some "", some "Hi", "normal", 1, 0⟩
        = Except.error (PyError.valueError "Missing required fields") :=
  ⟨(c3_validation_stage "email" "" "Hi" (Or.inl rfl)).1 (false, [], 0, 0) rfl,
   (c3_validation_stage "email" "" "Hi" (Or.inl rfl)).2
     ⟨some "email", some "", some "Hi", "normal", 1, 0⟩ (Or.inl rfl) (Or.inl rfl)⟩

/-- Claim C4: per dispatch call, the event manager receives exactly one
notify invocation when the pipeline result is success and none when it
is failure, in both the facade variant (send_notification) and the
builder variant (NotificationSystem.send). -/
theorem c4_one_event_on_success (t recipient message : String)
    (n : BuilderVariant.Notification)
    (resF : Bool × List FacadeVariant.EventData × Nat × Nat)
    (resB : Bool × List BuilderVariant.Notification × Nat)
    (hF : FacadeVariant.send_notification t recipient message = Except.ok resF)
    (hB : BuilderVariant.NotificationSystem.send n = Except.ok resB) :
    ((resF.1 = true → resF.2.1.length = 1) ∧ (resF.1 = false → resF.2.1.length = 0))
    ∧ ((resB.1 = true → resB.2.1.length = 1) ∧ (resB.1 = false → resB.2.1.length = 0)) := by
  constructor
  · rcases hc : FacadeVariant.NotificationFactory.create_notification t with e | kind
    · simp [FacadeVariant.send_notification, hc] at hF
    · rcases hl : FacadeVariant.chainHandle kind recipient message with ⟨r, sc, ac⟩
      simp [FacadeVariant.send_notification, hc, hl] at hF
      subst hF
      rcases r <;> simp
  · rcases hc : BuilderVariant.NotificationFactory.create n.notification_type with e | kind
    · simp [BuilderVariant.NotificationSystem.send, hc] at hB
    · rcases hl : BuilderVariant.builderChain
          (fun _ => BuilderVariant.strategySend kind n) n.retry_count with ⟨s?, sc, ac⟩
      rcases s? with _ | r
      · simp [BuilderVariant.NotificationSystem.send, hc, hl] at hB
      · simp [BuilderVariant.NotificationSystem.send, hc, hl] at hB
        subst hB
        rcases r <;> simp

/-- Witness for C4: a concrete successful facade dispatch emits one
event and a concrete successful builder dispatch emits one event. -/
theorem c4_one_event_on_success_witness :
    ([(⟨"email", "user@example.com", "Hi"⟩ : FacadeVariant.EventData)].length = 1)
    ∧ ([(⟨"email", "user@example.com", "Hi", "high", 1, 0⟩ :
          BuilderVariant.Notification)].length = 1) :=
  ⟨((c4_one_event_on_success "email" "user@example.com" "Hi"
      ⟨"email", "user@example.com", "Hi", "high", 1, 0⟩
      (true, [⟨"email", "user@example.com", "Hi"⟩], 1, 1)
      (true, [⟨"email", "user@example.com", "Hi", "high", 1, 0⟩], 1)
      rfl rfl).1).1 rfl,
   ((c4_one_event_on_success "email" "user@example.com" "Hi"
      ⟨"email", "user@example.com", "Hi", "high", 1, 0⟩
      (true, [⟨"email", "user@example.com", "Hi"⟩], 1, 1)
      (true, [⟨"email", "user@example.com", "Hi", "high", 1, 0⟩], 1)
      rfl rfl).2).1 rfl⟩

/-- Claim C8 (counterexample): in the builder variant the argument
handed to notify after a successful dispatch is the request object
itself, not a value copy of channel, recipient and priority: the
emitted event carries the message, the retry budget and the very
metadata dict reference of the request, so a mutation through the
event metadata reference is visible through the request. -/
theorem c8_counterexample :
    BuilderVariant.NotificationSystem.send ⟨"email", "user@example.com", "Hi", "high", 1, 5⟩
        = Except.ok (true, [⟨"email", "user@example.com", "Hi", "high", 1, 5⟩], 1)
    ∧ BuilderVariant.Notification.metadata ⟨"email", "user@example.com", "Hi", "high", 1, 5⟩ = 5
    ∧ PyHeap.getItem (PyHeap.setItem (fun _ => []) 5 "k" "v")
        (BuilderVariant.Notification.metadata ⟨"email", "user@example.com", "Hi", "high", 1, 5⟩)
        "k" = some "v" := by
  refine ⟨rfl, rfl, ?_⟩
  simp [PyHeap.getItem, PyHeap.setItem, dictGet, dictSet]

/-- Claim C8 (amended): in the facade variant the event handed to
observers on success is a fresh value built from the channel, recipient
and message strings of the call (not the priority), with no reference
to the dispatch context; in the builder variant the event handed to
observers is the request object itself. -/
theorem c8_event_payload (t recipient message : String)
    (n : BuilderVariant.Notification)
    (resF : Bool × List FacadeVariant.EventData × Nat × Nat)
    (resB : Bool × List BuilderVariant.Notification × Nat)
    (hF : FacadeVariant.send_notification t recipient message = Except.ok resF)
    (hB : BuilderVariant.NotificationSystem.send n = Except.ok resB) :
    (resF.1 = true → resF.2.1 = [⟨t, recipient, message⟩])
    ∧ (resB.1 = true → resB.2.1 = [n]) := by
  constructor
  · rcases hc : FacadeVariant.NotificationFactory.create_notification t with e | kind
    · simp [FacadeVariant.send_notification, hc] at hF
    · rcases hl : FacadeVariant.chainHandle kind recipient message with ⟨r, sc, ac⟩
      simp [FacadeVariant.send_notification, hc, hl] at hF
      subst hF
      rcases r <;> simp
  · rcases hc : BuilderVariant.NotificationFactory.create n.notification_type with e | kind
    · simp [BuilderVariant.NotificationSystem.send, hc] at hB
    · rcases hl : BuilderVariant.builderChain
          (fun _ => BuilderVariant.strategySend kind n) n.retry_count with ⟨s?, sc, ac⟩
      rcases s? with _ | r
      · simp [BuilderVariant.NotificationSystem.send, hc, hl] at hB
      · simp [BuilderVariant.NotificationSystem.send, hc, hl] at hB
        subst hB
        rcases r <;> simp

/-- Witness for C8 (amended): concrete successful dispatches show the
facade event equal to the fresh three-string value and the builder
event equal to the request itself. -/
theorem c8_event_payload_witness :
    ([(⟨"email", "user@example.com", "Hi"⟩ : FacadeVariant.EventData)]
        = [⟨"email", "user@example.com", "Hi"⟩])
    ∧ ([(⟨"email", "user@example.com", "Hi", "high", 1, 0⟩ : BuilderVariant.Notification)]
        = [⟨"email", "user@example.com", "Hi", "high", 1, 0⟩]) :=
  ⟨(c8_event_payload "email" "user@example.com" "Hi"
      ⟨"email", "user@example.com", "Hi", "high", 1, 0⟩
      (true, [⟨"email", "user@example.com", "Hi"⟩], 1, 1)
      (true, [⟨"email", "user@example.com", "Hi", "high", 1, 0⟩], 1)
      rfl rfl).1 rfl,
   (c8_event_payload "email" "user@example.com" "Hi"
      ⟨"email", "user@example.com", "Hi", "high", 1, 0⟩
      (true, [⟨"email", "user@example.com", "Hi"⟩], 1, 1)
      (true, [⟨"email", "user@example.com", "Hi", "high", 1, 0⟩], 1)
      rfl rfl).2 rfl⟩
